import Mathlib

/-!
Shallow embedding of the scan-history logic of the QR scanner app
(`src/screens/ScanHistoryScreen.js`).

Modelling conventions:
- JS `Date` values are `Int` milliseconds since the epoch
  (`Date.now()`, `date.getTime()`; `Date` comparison in JS compares
  these milliseconds).
- The AsyncStorage local cache is modelled per key as
  `Option (List ScanRecord)` (`none` = key absent); JSON
  serialisation is assumed to round-trip, as the code re-wraps the
  parsed timestamps into `Date` objects.
- A fallible read is `Except Unit α` (`Except.error ()` = the awaited
  call threw).
- React `setScans` state updates are modelled by returning the new
  in-memory list in a result structure.
-/

/-- A scan record as used by the history screen: `id`, the raw QR
payload `qrData`, the `timestamp` in ms, an optional latitude/longitude
pair, and a display `type` tag. -/
structure ScanRecord where
  id : String
  qrData : String
  timestamp : Int
  location : Option (Rat × Rat)
  type : String
deriving DecidableEq, Repr

/-- ASCII lower-casing of one character (the payloads in this app are
ASCII, where JS `toLowerCase` acts exactly like this). -/
def lowerChar (c : Char) : Char :=
  if 65 ≤ c.toNat ∧ c.toNat ≤ 90 then Char.ofNat (c.toNat + 32) else c

/-- JS `String.prototype.toLowerCase` on ASCII payloads. -/
def jsToLower (s : String) : String :=
  ⟨s.data.map lowerChar⟩

/-- `pat` occurs as a contiguous sublist of the character list. -/
def occursIn (pat : List Char) : List Char → Bool
  | [] => pat.isEmpty
  | c :: cs => pat.isPrefixOf (c :: cs) || occursIn pat cs

/-- JS `String.prototype.includes`: `pat` occurs as a substring of `s`
(the empty pattern always matches). -/
def jsIncludes (s pat : String) : Bool :=
  occursIn pat.data s.data

/-- JS `String.prototype.startsWith`. -/
def jsStartsWith (s pre : String) : Bool :=
  pre.data.isPrefixOf s.data

/-- The fixed default demo data built by `getDemoScans` when no demo
snapshot exists: 5 records whose timestamps are 1..5 days before the
load-time now (`Date.now() - k * 86400000`). -/
def demoSeed (now : Int) : List ScanRecord :=
  [ { id := "1",
      qrData := "https://expo.dev",
      timestamp := now - 86400000,
      location := some (40.7128, -74.0060),
      type := "url" },
    { id := "2",
      qrData := "Hello World QR Code - This is a simple text QR code for testing",
      timestamp := now - 172800000,
      location := none,
      type := "text" },
    { id := "3",
      qrData := "https://reactnative.dev/docs/getting-started",
      timestamp := now - 259200000,
      location := some (37.7749, -122.4194),
      type := "url" },
    { id := "4",
      qrData := "Contact: John Doe\nPhone: +1-555-123-4567\nEmail: john@example.com",
      timestamp := now - 345600000,
      location := some (34.0522, -118.2437),
      type := "contact" },
    { id := "5",
      qrData := "WiFi:T:WPA;S:MyNetwork;P:password123;H:false;;",
      timestamp := now - 432000000,
      location := none,
      type := "wifi" } ]

/-- `getDemoScans`: reads the `demoScans` key; a stored snapshot is
returned as-is; if the key is absent, or the read throws (the catch
only logs), the default demo data is generated, persisted under
`demoScans`, and returned. Result: (returned list, resulting content
of the `demoScans` key). -/
def getDemoScans (read : Except Unit (Option (List ScanRecord))) (now : Int) :
    List ScanRecord × Option (List ScanRecord) :=
  match read with
  | .ok (some scans) => (scans, some scans)
  | .ok none => (demoSeed now, some (demoSeed now))
  | .error _ => (demoSeed now, some (demoSeed now))

/-- The cutoff date computed by the `switch` in `filterScans`:
`today` -> local midnight, `week` -> now - 7 days, `month` ->
now - 30 days, anything else -> `null`. `midnightMs` is the value of
`new Date(getFullYear(), getMonth(), getDate())`. -/
def timeCutoff (selectedFilter : String) (nowMs midnightMs : Int) : Option Int :=
  if selectedFilter = "today" then some midnightMs
  else if selectedFilter = "week" then some (nowMs - 7 * 24 * 60 * 60 * 1000)
  else if selectedFilter = "month" then some (nowMs - 30 * 24 * 60 * 60 * 1000)
  else none

/-- `filterScans`: applies the time filter (skipped when the selected
filter is `all` or the cutoff is `null`; keeps `scan.timestamp >= cutoffDate`),
then the search filter (skipped when `searchText` is empty; keeps
records whose lowercased `qrData` includes the lowercased search
text). -/
def filterScans (scans : List ScanRecord) (selectedFilter searchText : String)
    (nowMs midnightMs : Int) : List ScanRecord :=
  let filtered := scans
  let filtered :=
    if selectedFilter = "all" then filtered
    else
      match timeCutoff selectedFilter nowMs midnightMs with
      | some cutoffDate => filtered.filter (fun scan => decide (cutoffDate ≤ scan.timestamp))
      | none => filtered
  if searchText = "" then filtered
  else filtered.filter (fun scan => jsIncludes (jsToLower scan.qrData) (jsToLower searchText))

/-- Display decoration returned by `getQRType`. -/
structure QRTypeInfo where
  type : String
  icon : String
  color : String
deriving DecidableEq, Repr

/-- `getQRType`: ordered first-match classification of a QR payload. -/
def getQRType (data : String) : QRTypeInfo :=
  if jsStartsWith data "http://" || jsStartsWith data "https://" then
    { type := "url", icon := "🌐", color := "#2196F3" }
  else if jsStartsWith data "mailto:" then
    { type := "email", icon := "📧", color := "#FF9800" }
  else if jsStartsWith data "tel:" then
    { type := "phone", icon := "📞", color := "#4CAF50" }
  else if jsStartsWith data "WiFi:" then
    { type := "wifi", icon := "📶", color := "#9C27B0" }
  else if jsIncludes data "Contact:" || jsIncludes data "VCARD" then
    { type := "contact", icon := "👤", color := "#FF5722" }
  else
    { type := "text", icon := "📝", color := "#607D8B" }

/-- The authenticated user from the auth context (absent = `null`). -/
structure User where
  uid : String
  email : String
deriving DecidableEq, Repr

/-- The JS guard that a user exists and its uid differs from the
fixed `demo-user` identity. -/
def isRemoteUser (user : Option User) : Bool :=
  match user with
  | none => false
  | some u => u.uid ≠ "demo-user"

/-- Outcome of one `fetchScanHistory` run. `scans` is the in-memory
list after the run (`prevScans` when no `setScans` call happened),
`backupWrite` the value written to the `scanHistory` key (if any),
`errorAlert` whether the `Failed to load scan history` alert fired. -/
structure FetchResult where
  scans : List ScanRecord
  backupWrite : Option (List ScanRecord)
  errorAlert : Bool
deriving DecidableEq, Repr

/-- `fetchScanHistory`: demo/absent user -> `getDemoScans`; otherwise
query the remote store; on success set the list and mirror it to the
`scanHistory` backup key; on failure read the backup key — a stored
snapshot is loaded, an absent one leaves the list untouched, and only
a throwing backup read raises the error alert. -/
def fetchScanHistory (user : Option User)
    (remote : Except Unit (List ScanRecord))
    (backupRead : Except Unit (Option (List ScanRecord)))
    (demoRead : Except Unit (Option (List ScanRecord)))
    (prevScans : List ScanRecord) (now : Int) : FetchResult :=
  if isRemoteUser user then
    match remote with
    | .ok scanData =>
        { scans := scanData, backupWrite := some scanData, errorAlert := false }
    | .error _ =>
        match backupRead with
        | .ok (some localScans) =>
            { scans := localScans, backupWrite := none, errorAlert := false }
        | .ok none =>
            { scans := prevScans, backupWrite := none, errorAlert := false }
        | .error _ =>
            { scans := prevScans, backupWrite := none, errorAlert := true }
  else
    { scans := (getDemoScans demoRead now).1, backupWrite := none, errorAlert := false }

/-- Outcome of `deleteScan` or of the confirmed `clearAllScans`
action: the success flag (`Alert Success` vs `Alert Error`), the
in-memory list, the remote `scans` documents of the user, and the
content of the `demoScans` key. -/
structure StoreResult where
  success : Bool
  scans : List ScanRecord
  remote : List ScanRecord
  demoCache : Option (List ScanRecord)
deriving DecidableEq, Repr

/-- `deleteScan scan`: non-demo user -> `deleteDoc` on the remote
document with the same id (throwing when `remoteOk = false`);
demo/absent user -> write the filtered list to the `demoScans` key
(throwing when `localOk = false`). Only then is the in-memory list
filtered; a throw skips that update and raises the error alert. -/
def deleteScan (user : Option User) (remoteOk localOk : Bool)
    (remote : List ScanRecord) (demoCache : Option (List ScanRecord))
    (scans : List ScanRecord) (scan : ScanRecord) : StoreResult :=
  if isRemoteUser user then
    if remoteOk then
      { success := true,
        scans := scans.filter (fun s => decide (s.id ≠ scan.id)),
        remote := remote.filter (fun s => decide (s.id ≠ scan.id)),
        demoCache := demoCache }
    else
      { success := false, scans := scans, remote := remote, demoCache := demoCache }
  else
    if localOk then
      { success := true,
        scans := scans.filter (fun s => decide (s.id ≠ scan.id)),
        remote := remote,
        demoCache := some (scans.filter (fun s => decide (s.id ≠ scan.id))) }
    else
      { success := false, scans := scans, remote := remote, demoCache := demoCache }

/-- The confirmed `Clear All` action of `clearAllScans`: for a
non-demo user the remote branch is an empty comment block; then the
`demoScans` key is removed (throwing when `removeOk = false`) and the
in-memory list emptied. -/
def clearAllScans (user : Option User) (removeOk : Bool)
    (remote : List ScanRecord) (demoCache : Option (List ScanRecord))
    (scans : List ScanRecord) : StoreResult :=
  if removeOk then
    { success := true, scans := [], remote := remote, demoCache := none }
  else
    { success := false, scans := scans, remote := remote, demoCache := demoCache }

/-- Claim-side wording (spec refinement target): the timestamp falls
on the current local calendar day, i.e. at or after the local midnight
and before the next local midnight. -/
def onLocalDay (midnightMs t : Int) : Prop :=
  midnightMs ≤ t ∧ t < midnightMs + 86400000

instance (midnightMs t : Int) : Decidable (onLocalDay midnightMs t) :=
  inferInstanceAs (Decidable (midnightMs ≤ t ∧ t < midnightMs + 86400000))

/-- The time predicate of `filterScans`, read off pointwise: `all`
keeps everything, a `null` cutoff keeps everything, otherwise keep
`cutoff <= timestamp`. -/
def timeKeep (selectedFilter : String) (nowMs midnightMs : Int) (scan : ScanRecord) : Bool :=
  if selectedFilter = "all" then true
  else
    match timeCutoff selectedFilter nowMs midnightMs with
    | some cutoffDate => decide (cutoffDate ≤ scan.timestamp)
    | none => true

/-- The search predicate of `filterScans`, read off pointwise: empty
search text keeps everything, otherwise case-insensitive substring
match against `qrData`. -/
def searchKeep (searchText : String) (scan : ScanRecord) : Bool :=
  if searchText = "" then true
  else jsIncludes (jsToLower scan.qrData) (jsToLower searchText)

/-- C10: `filterScans` with time filter `all` and empty search text is
the identity: it returns the input list unchanged (same elements, same
order). -/
theorem filterScans_all_empty_id (scans : List ScanRecord) (nowMs midnightMs : Int) :
    filterScans scans "all" "" nowMs midnightMs = scans := rfl

/-- C7: `getQRType` is an ordered first-match rule list: prefix
`http://` or `https://` gives url; else prefix `mailto:` gives email;
else prefix `tel:` gives phone; else prefix `WiFi:` gives wifi; else
containing `Contact:` or `VCARD` gives contact; otherwise text.
Concretely, `https://example.com` is url, `WiFi:T:WPA;S:Net;P:pw;;`
is wifi, `plain text` is text. -/
theorem getQRType_firstMatch_spec :
    (∀ s : String, (jsStartsWith s "http://" || jsStartsWith s "https://") = true →
      (getQRType s).type = "url")
    ∧ (∀ s : String, (jsStartsWith s "http://" || jsStartsWith s "https://") = false →
        jsStartsWith s "mailto:" = true → (getQRType s).type = "email")
    ∧ (∀ s : String, (jsStartsWith s "http://" || jsStartsWith s "https://") = false →
        jsStartsWith s "mailto:" = false → jsStartsWith s "tel:" = true →
        (getQRType s).type = "phone")
    ∧ (∀ s : String, (jsStartsWith s "http://" || jsStartsWith s "https://") = false →
        jsStartsWith s "mailto:" = false → jsStartsWith s "tel:" = false →
        jsStartsWith s "WiFi:" = true → (getQRType s).type = "wifi")
    ∧ (∀ s : String, (jsStartsWith s "http://" || jsStartsWith s "https://") = false →
        jsStartsWith s "mailto:" = false → jsStartsWith s "tel:" = false →
        jsStartsWith s "WiFi:" = false →
        (jsIncludes s "Contact:" || jsIncludes s "VCARD") = true →
        (getQRType s).type = "contact")
    ∧ (∀ s : String, (jsStartsWith s "http://" || jsStartsWith s "https://") = false →
        jsStartsWith s "mailto:" = false → jsStartsWith s "tel:" = false →
        jsStartsWith s "WiFi:" = false →
        (jsIncludes s "Contact:" || jsIncludes s "VCARD") = false →
        (getQRType s).type = "text")
    ∧ (getQRType "https://example.com").type = "url"
    ∧ (getQRType "WiFi:T:WPA;S:Net;P:pw;;").type = "wifi"
    ∧ (getQRType "plain text").type = "text" := by
  refine ⟨?_, ?_, ?_, ?_, ?_, ?_, by decide, by decide, by decide⟩ <;>
    intro s <;> intros <;> simp_all [getQRType]

/-- Witness for C7: the phone rule fires on `tel:123`, whose earlier
rules all fail. -/
theorem getQRType_firstMatch_spec_witness :
    (getQRType "tel:123").type = "phone" :=
  getQRType_firstMatch_spec.2.2.1 "tel:123" (by decide) (by decide) (by decide)

/-- C1: for a demo or absent user whose local cache holds no demo
snapshot, the load returns exactly 5 seed records with strictly
decreasing timestamps at offsets of 1 to 5 days before the load-time
now, persists them under the demo-data key, and an immediately
subsequent load returns the same 5 records. -/
theorem getDemoScans_firstSeed_spec (now later : Int)
    (remote : Except Unit (List ScanRecord))
    (backupRead : Except Unit (Option (List ScanRecord)))
    (prevScans : List ScanRecord) (em : String) :
    (getDemoScans (Except.ok none) now).1.length = 5
    ∧ (getDemoScans (Except.ok none) now).1.map ScanRecord.timestamp
        = [now - 1 * 86400000, now - 2 * 86400000, now - 3 * 86400000,
           now - 4 * 86400000, now - 5 * 86400000]
    ∧ List.Pairwise (fun a b => b.timestamp < a.timestamp) (getDemoScans (Except.ok none) now).1
    ∧ (getDemoScans (Except.ok none) now).2 = some (getDemoScans (Except.ok none) now).1
    ∧ getDemoScans (Except.ok (getDemoScans (Except.ok none) now).2) later
        = ((getDemoScans (Except.ok none) now).1, (getDemoScans (Except.ok none) now).2)
    ∧ (fetchScanHistory none remote backupRead (Except.ok none) prevScans now).scans
        = (getDemoScans (Except.ok none) now).1
    ∧ (fetchScanHistory (some ⟨"demo-user", em⟩) remote backupRead (Except.ok none) prevScans now).scans
        = (getDemoScans (Except.ok none) now).1 := by
  refine ⟨rfl, ?_, ?_, rfl, rfl, rfl, rfl⟩
  · simp [getDemoScans, demoSeed]
  · simp [getDemoScans, demoSeed]

/-- C9: for a demo or absent user, a failing local-cache read of the
demo snapshot silently falls through to reseeding: the default 5 seed
records are regenerated, persisted, and returned (with no error
surfaced), independently of whatever the snapshot previously held. -/
theorem getDemoScans_readError_reseeds (now : Int)
    (remote : Except Unit (List ScanRecord))
    (backupRead : Except Unit (Option (List ScanRecord)))
    (prevScans : List ScanRecord) :
    getDemoScans (Except.error ()) now = (demoSeed now, some (demoSeed now))
    ∧ (demoSeed now).length = 5
    ∧ fetchScanHistory none remote backupRead (Except.error ()) prevScans now
        = ⟨demoSeed now, none, false⟩ :=
  ⟨rfl, rfl, rfl⟩

/-- Counterexample to C2 as stated: on the freshly seeded demo
records (1 to 5 days old), the `week` filter with empty search text
returns all 5 records, not 3 — none of the seeds is older than 7
days. Concretely at seed time 0. -/
theorem filterScans_week_seed_cx :
    filterScans (demoSeed 0) "week" "" 0 0 = demoSeed 0
    ∧ (filterScans (demoSeed 0) "week" "" 0 0).length ≠ 3 :=
  ⟨rfl, by decide⟩

/-- C2 (amended): on the 5 freshly seeded demo records, the `week`
filter with empty search text keeps all 5 records (each is at most 5
days old, inside the 7-day window), preserving the newest-first
order. -/
theorem filterScans_week_seed_keepsAll (now midnightMs : Int) :
    filterScans (demoSeed now) "week" "" now midnightMs = demoSeed now
    ∧ (filterScans (demoSeed now) "week" "" now midnightMs).length = 5
    ∧ List.Pairwise (fun a b => b.timestamp < a.timestamp)
        (filterScans (demoSeed now) "week" "" now midnightMs) := by
  have h : filterScans (demoSeed now) "week" "" now midnightMs = demoSeed now := by
    show ((demoSeed now).filter fun scan =>
        decide (now - 7 * 24 * 60 * 60 * 1000 ≤ scan.timestamp)) = demoSeed now
    rw [List.filter_eq_self]
    intro a ha
    simp only [demoSeed, List.mem_cons, List.not_mem_nil, or_false] at ha
    rcases ha with h | h | h | h | h <;> subst h <;>
      simp only [decide_eq_true_eq] <;> omega
  refine ⟨h, ?_, ?_⟩
  · rw [h]; rfl
  · rw [h]
    simp [demoSeed]

/-- Counterexample to C3 as stated: a future-dated record (not on the
current local calendar day) is still returned by the `today` filter,
because the code only checks `timestamp >= midnight`. Concretely with
midnight 0, now 1000 and a record timestamped 200000000 ms (more than
two days after that midnight). -/
theorem filterScans_today_futureRecord_cx :
    filterScans [⟨"f", "future", 200000000, none, "text"⟩] "today" "" 1000 0
        = [⟨"f", "future", 200000000, none, "text"⟩]
    ∧ ¬ onLocalDay 0 200000000 :=
  ⟨rfl, by decide⟩

/-- C3 (amended): the `today` filter with empty search text keeps
exactly the records with `timestamp >=` the local midnight of the
current day; this coincides with "falls on the current local calendar
day" whenever no record is dated after the current day (timestamp
before the next midnight). -/
theorem filterScans_today_spec (scans : List ScanRecord) (nowMs midnightMs : Int) :
    filterScans scans "today" "" nowMs midnightMs
      = scans.filter (fun scan => decide (midnightMs ≤ scan.timestamp))
    ∧ ((∀ scan ∈ scans, scan.timestamp < midnightMs + 86400000) →
        filterScans scans "today" "" nowMs midnightMs
          = scans.filter (fun scan => decide (onLocalDay midnightMs scan.timestamp))) := by
  refine ⟨rfl, fun h => ?_⟩
  show (scans.filter fun scan => decide (midnightMs ≤ scan.timestamp)) = _
  exact List.filter_congr fun a ha => by
    have hb := h a ha
    simp [onLocalDay, decide_eq_decide, hb]

/-- Witness for C3: with midnight 0 and one record timestamped 500
(within the day), the two formulations agree. -/
theorem filterScans_today_spec_witness :
    filterScans [⟨"w", "hello", 500, none, "text"⟩] "today" "" 1000 0
      = List.filter (fun scan => decide (onLocalDay 0 scan.timestamp))
          [⟨"w", "hello", 500, none, "text"⟩] :=
  (filterScans_today_spec [⟨"w", "hello", 500, none, "text"⟩] 1000 0).2 (by decide)

/-- C4: `filterScans` is the pointwise conjunction of the time
predicate and the search predicate (a single pass of `List.filter`,
so the relative input order is preserved — the result is a sublist of
the input); the empty search text keeps every record; and the search
is case-insensitive: on the seeded records, searching `wifi` returns
exactly the record whose `qrData` starts with `WiFi:`. -/
theorem filterScans_pointwise_spec (scans : List ScanRecord) (filt txt : String)
    (nowMs midnightMs : Int) :
    filterScans scans filt txt nowMs midnightMs
      = scans.filter (fun scan => timeKeep filt nowMs midnightMs scan && searchKeep txt scan)
    ∧ (filterScans scans filt txt nowMs midnightMs).Sublist scans
    ∧ (∀ scan, searchKeep "" scan = true)
    ∧ filterScans (demoSeed 0) "all" "wifi" nowMs midnightMs
        = [⟨"5", "WiFi:T:WPA;S:MyNetwork;P:password123;H:false;;", 0 - 432000000, none, "wifi"⟩] := by
  have main : filterScans scans filt txt nowMs midnightMs
      = scans.filter (fun scan => timeKeep filt nowMs midnightMs scan && searchKeep txt scan) := by
    unfold filterScans timeKeep searchKeep
    by_cases hf : filt = "all" <;> by_cases ht : txt = ""
    · simp [hf, ht]
    · simp [hf, ht]
    · cases hc : timeCutoff filt nowMs midnightMs <;> simp [hf, ht, hc]
    · cases hc : timeCutoff filt nowMs midnightMs <;>
        simp [hf, ht, hc, List.filter_filter, Bool.and_comm]
  exact ⟨main, main ▸ List.filter_sublist _, fun scan => rfl, rfl⟩

/-- C5: `deleteScan` deletes from the remote store by id for a
non-demo user and rewrites the local demo snapshot otherwise, then
removes the record from the in-memory list; when the underlying store
operation throws, the outcome is a failure (error surfaced instead of
the success alert) and the in-memory list, the remote store and the
demo snapshot are all left unchanged. -/
theorem deleteScan_spec (user : Option User) (remoteOk localOk : Bool)
    (remote : List ScanRecord) (demoCache : Option (List ScanRecord))
    (scans : List ScanRecord) (scan : ScanRecord) :
    (isRemoteUser user = true → remoteOk = true →
      deleteScan user remoteOk localOk remote demoCache scans scan
        = ⟨true, scans.filter (fun s => decide (s.id ≠ scan.id)),
            remote.filter (fun s => decide (s.id ≠ scan.id)), demoCache⟩)
    ∧ (isRemoteUser user = false → localOk = true →
        deleteScan user remoteOk localOk remote demoCache scans scan
          = ⟨true, scans.filter (fun s => decide (s.id ≠ scan.id)),
              remote, some (scans.filter (fun s => decide (s.id ≠ scan.id)))⟩)
    ∧ (isRemoteUser user = true → remoteOk = false →
        deleteScan user remoteOk localOk remote demoCache scans scan
          = ⟨false, scans, remote, demoCache⟩)
    ∧ (isRemoteUser user = false → localOk = false →
        deleteScan user remoteOk localOk remote demoCache scans scan
          = ⟨false, scans, remote, demoCache⟩) := by
  exact ⟨fun hu hr => by simp [deleteScan, hu, hr],
    fun hu hl => by simp [deleteScan, hu, hl],
    fun hu hr => by simp [deleteScan, hu, hr],
    fun hu hl => by simp [deleteScan, hu, hl]⟩

/-- Witness for C5: deleting the only demo record as the absent user
empties both the in-memory list and the persisted snapshot. -/
theorem deleteScan_spec_witness :
    deleteScan none true true [] none [⟨"9", "plain text", 0, none, "text"⟩]
        ⟨"9", "plain text", 0, none, "text"⟩
      = ⟨true,
          List.filter (fun s => decide (s.id ≠ "9")) [⟨"9", "plain text", 0, none, "text"⟩],
          [],
          some (List.filter (fun s => decide (s.id ≠ "9")) [⟨"9", "plain text", 0, none, "text"⟩])⟩ :=
  (deleteScan_spec none true true [] none [⟨"9", "plain text", 0, none, "text"⟩]
      ⟨"9", "plain text", 0, none, "text"⟩).2.1 rfl rfl

/-- Counterexample to C6 as stated: for a non-demo user whose remote
query fails and whose local backup key is absent (empty, but the read
itself does not throw), the code returns the (initially empty) list
without surfacing any error — no alert fires, contradicting the
claimed error surfacing for the merely-empty case. -/
theorem fetchScanHistory_emptyBackup_cx :
    (fetchScanHistory (some ⟨"u1", "u1@example.com"⟩) (Except.error ())
        (Except.ok none) (Except.ok none) [] 0).scans = []
    ∧ (fetchScanHistory (some ⟨"u1", "u1@example.com"⟩) (Except.error ())
        (Except.ok none) (Except.ok none) [] 0).errorAlert = false :=
  ⟨rfl, rfl⟩

/-- C6 (amended): `fetchScanHistory` is a total function (never
throws); for a non-demo user a successful remote query sets the list
and mirrors it to the backup key; on remote failure it falls back to
the backup snapshot; when the backup is merely empty it leaves the
list unchanged (initially empty) and silent, and only a throwing
backup read surfaces the recoverable error alert (the list again
unchanged). -/
theorem fetchScanHistory_fallback_spec (user : Option User)
    (remote : Except Unit (List ScanRecord))
    (backupRead : Except Unit (Option (List ScanRecord)))
    (demoRead : Except Unit (Option (List ScanRecord)))
    (prevScans : List ScanRecord) (now : Int)
    (hu : isRemoteUser user = true) :
    (∀ l, remote = Except.ok l →
      fetchScanHistory user remote backupRead demoRead prevScans now = ⟨l, some l, false⟩)
    ∧ (remote = Except.error () →
        (∀ l, backupRead = Except.ok (some l) →
          fetchScanHistory user remote backupRead demoRead prevScans now = ⟨l, none, false⟩)
        ∧ (backupRead = Except.ok none →
            fetchScanHistory user remote backupRead demoRead prevScans now
              = ⟨prevScans, none, false⟩)
        ∧ (backupRead = Except.error () →
            fetchScanHistory user remote backupRead demoRead prevScans now
              = ⟨prevScans, none, true⟩)) := by
  exact ⟨fun l hr => by simp [fetchScanHistory, hu, hr],
    fun hr => ⟨fun l hb => by simp [fetchScanHistory, hu, hr, hb],
      fun hb => by simp [fetchScanHistory, hu, hr, hb],
      fun hb => by simp [fetchScanHistory, hu, hr, hb]⟩⟩

/-- Witness for C6: a failing remote query and a throwing backup read
leave the empty list in place and raise the error alert. -/
theorem fetchScanHistory_fallback_spec_witness :
    fetchScanHistory (some ⟨"u1", "u1@example.com"⟩) (Except.error ())
        (Except.error ()) (Except.ok none) [] 0
      = ⟨[], none, true⟩ :=
  ((fetchScanHistory_fallback_spec (some ⟨"u1", "u1@example.com"⟩) (Except.error ())
      (Except.error ()) (Except.ok none) [] 0 rfl).2 rfl).2.2 rfl

/-- C8: the confirmed clear-all removes the demo snapshot and empties
the in-memory list for every user (when the cache removal does not
throw), and performs no remote deletion whatsoever: the remote
documents are unchanged for every user and either outcome. -/
theorem clearAllScans_spec (user : Option User) (removeOk : Bool)
    (remote : List ScanRecord) (demoCache : Option (List ScanRecord))
    (scans : List ScanRecord) :
    (clearAllScans user removeOk remote demoCache scans).remote = remote
    ∧ (removeOk = true →
        clearAllScans user removeOk remote demoCache scans = ⟨true, [], remote, none⟩)
    ∧ (removeOk = false →
        clearAllScans user removeOk remote demoCache scans
          = ⟨false, scans, remote, demoCache⟩) := by
  exact ⟨by cases removeOk <;> simp [clearAllScans],
    fun h => by simp [clearAllScans, h],
    fun h => by simp [clearAllScans, h]⟩

/-- Witness for C8: an authenticated non-demo user with one remote
document: clear-all empties the local state but the remote document
survives. -/
theorem clearAllScans_spec_witness :
    clearAllScans (some ⟨"u1", "u1@example.com"⟩) true
        [⟨"r1", "https://expo.dev", 123, none, "url"⟩]
        (some []) [⟨"r1", "https://expo.dev", 123, none, "url"⟩]
      = ⟨true, [], [⟨"r1", "https://expo.dev", 123, none, "url"⟩], none⟩ :=
  (clearAllScans_spec (some ⟨"u1", "u1@example.com"⟩) true
      [⟨"r1", "https://expo.dev", 123, none, "url"⟩]
      (some []) [⟨"r1", "https://expo.dev", 123, none, "url"⟩]).2.1 rfl
